import Mathlib

/-!
# EpcEnbApplication: bearer tables and S1-U / LTE forwarding

Shallow embedding of `src/lte/model/epc-enb-application.cc`, and of the X2 interface
registry declared in `src/lte/helper/epc-helper.h`.

* `std::map<K,V>` is the sequence of its entries (`List (K × V)`); `find` and
  `operator[]` are driven by the key comparison `operator<` only, as in the
  standard container.
* Machine integers (`uint8_t` … `uint64_t`) are `Nat`; a reduction `% 2^w` is
  written wherever the source converts or may wrap.
* `NS_ASSERT` is modelled with assertions enabled: a failed assertion stops the
  handler at that point and is recorded in `Outcome.failure`; everything handed
  to a socket or to the S1 SAP user before that point stays in `Outcome.sent`.
-/

namespace ns3

/-! ## std::map -/

namespace StdMap

/-- Strict total order laws for a key comparison `operator<`. -/
structure StrictTotal {K : Type} (lt : K → K → Bool) : Prop where
  irrefl : ∀ a, lt a a = false
  trans : ∀ a b c, lt a b = true → lt b c = true → lt a c = true
  tri : ∀ a b, lt a b = false → lt b a = false → a = b

/-- Lookup `std::map::find (k)`: walk to the first entry whose key is not less than `k`
(lower bound) and return its value when `k` is not less than that key either;
`none` stands for `end ()`. -/
def find {K V : Type} (lt : K → K → Bool) (k : K) : List (K × V) → Option V
  | [] => none
  | (k1, v1) :: rest =>
    if lt k1 k then find lt k rest
    else if lt k k1 then none
    else some v1

/-- Assignment `m[k] = v` (`std::map::operator[]` followed by assignment): the entry with a
key equivalent to `k` gets the value `v`; when there is none, `(k, v)` is inserted
at its place in key order. -/
def assign {K V : Type} (lt : K → K → Bool) (k : K) (v : V) : List (K × V) → List (K × V)
  | [] => [(k, v)]
  | (k1, v1) :: rest =>
    if lt k1 k then (k1, v1) :: assign lt k v rest
    else if lt k k1 then (k, v) :: (k1, v1) :: rest
    else (k1, v) :: rest

end StdMap

/-- Comparison `operator<` of the built-in unsigned integer types. -/
def natLt (a b : Nat) : Bool := decide (a < b)

/-! ## EpsFlowId_t -/

/-- Flow key `EpcEnbApplication::EpsFlowId_t`: `m_rnti` (`uint16_t`), `m_bid` (`uint8_t`). -/
structure EpsFlowId_t where
  m_rnti : Nat
  m_bid : Nat
deriving DecidableEq

/-- Equality `operator== (EpsFlowId_t, EpsFlowId_t)`. -/
def EpsFlowId_t.eq (a b : EpsFlowId_t) : Bool :=
  (a.m_rnti == b.m_rnti) && (a.m_bid == b.m_bid)

/-- Ordering `operator< (EpsFlowId_t, EpsFlowId_t)`. -/
def EpsFlowId_t.lt (a b : EpsFlowId_t) : Bool :=
  decide (a.m_rnti < b.m_rnti) || ((a.m_rnti == b.m_rnti) && decide (a.m_bid < b.m_bid))

/-- The ordering as the data model words it: compare `m_rnti` first, then `m_bid`. -/
def EpsFlowId_t.lexLt (a b : EpsFlowId_t) : Bool :=
  if a.m_rnti = b.m_rnti then decide (a.m_bid < b.m_bid) else decide (a.m_rnti < b.m_rnti)

/-! ## Collaborators that are not part of the translated file -/

/-- Modelled from the spec: the tunnel header class `GtpuHeader` (declared in
`epc-gtpu-header.h`, which is not among the sources). Fields as in the data model:
control flags byte, message type byte, 16-bit payload length, 32-bit tunnel
endpoint id, and the optional sequence number, N-PDU number and
extension header type. -/
structure GtpuHeader where
  flags : Nat
  messageType : Nat
  length : Nat
  teid : Nat
  sequenceNumber : Nat
  nPduNumber : Nat
  nextExtensionType : Nat
deriving DecidableEq

/-- Setter `GtpuHeader::SetTeid (uint32_t)`. -/
def GtpuHeader.SetTeid (h : GtpuHeader) (teid : Nat) : GtpuHeader :=
  { h with teid := teid }

/-- Getter `GtpuHeader::GetTeid ()`. -/
def GtpuHeader.GetTeid (h : GtpuHeader) : Nat := h.teid

/-- Setter `GtpuHeader::SetLength (uint16_t)`: the field is 16 bits wide, so the argument is
converted to `uint16_t` at the call. -/
def GtpuHeader.SetLength (h : GtpuHeader) (length : Nat) : GtpuHeader :=
  { h with length := length % 2 ^ 16 }

/-- The part of `GtpuHeader` whose code is not among the sources, taken as a parameter:
the default-constructed header, `GetSerializedSize`, `Serialize` (the bytes
`Packet::AddHeader` puts in front of the payload) and `Deserialize` (the header
read by `Packet::RemoveHeader` and the number of bytes it occupies; `none` when
the buffer holds no well-formed header). The serialized size is at least the 8
mandatory bytes. -/
structure GtpuCodec where
  ctor : GtpuHeader
  GetSerializedSize : GtpuHeader → Nat
  Serialize : GtpuHeader → List Nat
  Deserialize : List Nat → Option (GtpuHeader × Nat)
  mandatory : ∀ h, 8 ≤ GetSerializedSize h

/-- Packet tag `EpsBearerTag (rnti, bid)` with `GetRnti ()` and `GetBid ()`, as the handlers
use it. -/
structure EpsBearerTag where
  rnti : Nat
  bid : Nat
deriving DecidableEq

/-- Modelled from the spec: a packet is its payload bytes together with the side-channel
tags attached outside the payload (`SocketAddressTag`, `EpsBearerTag`), at most
one of each kind. -/
structure Packet where
  bytes : List Nat
  socketAddressTag : Option Nat
  epsBearerTag : Option EpsBearerTag
deriving DecidableEq

/-- Size `Packet::GetSize ()`. -/
def Packet.GetSize (p : Packet) : Nat := p.bytes.length

/-- Tag removal `Packet::RemovePacketTag (SocketAddressTag&)`. -/
def Packet.RemoveSocketAddressTag (p : Packet) : Packet :=
  { p with socketAddressTag := none }

/-- Tag removal `Packet::RemovePacketTag (EpsBearerTag&)`: the tag found (if any) and the
packet without it. -/
def Packet.RemoveEpsBearerTag (p : Packet) : Option EpsBearerTag × Packet :=
  (p.epsBearerTag, { p with epsBearerTag := none })

/-- Tag attachment `Packet::AddPacketTag (EpsBearerTag)`. -/
def Packet.AddEpsBearerTag (p : Packet) (tag : EpsBearerTag) : Packet :=
  { p with epsBearerTag := some tag }

/-- Header attachment `Packet::AddHeader (gtpu)`: the serialized header goes in front of the bytes. -/
def Packet.AddHeader (G : GtpuCodec) (p : Packet) (gtpu : GtpuHeader) : Packet :=
  { p with bytes := G.Serialize gtpu ++ p.bytes }

/-- Header removal `Packet::RemoveHeader (gtpu)`: the header read from the front of the bytes
and the packet without the bytes it occupied; `none` when no header can be read. -/
def Packet.RemoveHeader (G : GtpuCodec) (p : Packet) : Option (GtpuHeader × Packet) :=
  match G.Deserialize p.bytes with
  | none => none
  | some (gtpu, n) => some (gtpu, { p with bytes := p.bytes.drop n })

/-- Destination `InetSocketAddress (ipv4, port)`, as `SendToS1uSocket` builds it. -/
structure InetSocketAddress where
  ipv4 : Nat
  port : Nat
deriving DecidableEq

/-- Modelled from the spec: the bearer parameters `EpsBearer`, opaque to this class, which
only copies them. -/
structure EpsBearer where
  raw : Nat
deriving DecidableEq

/-- Parameters `EpcEnbS1SapUser::DataRadioBearerSetupRequestParameters`: the three fields
`ErabSetupRequest` fills in. -/
structure DataRadioBearerSetupRequestParameters where
  rnti : Nat
  bearer : EpsBearer
  gtpTeid : Nat
deriving DecidableEq

/-- Parameters `EpcEnbS1SapProvider::S1BearerSetupRequestParameters`: the three fields
`DoS1BearerSetupRequest` reads. -/
structure S1BearerSetupRequestParameters where
  rnti : Nat
  bid : Nat
  gtpTeid : Nat
deriving DecidableEq

/-! ## EpcEnbApplication -/

/-- Everything the application hands to a collaborator. -/
inductive Event where
  | lteSend (packet : Packet)
  | s1uSendTo (packet : Packet) (flags : Nat) (toAddress : InetSocketAddress)
  | dataRadioBearerSetupRequest (params : DataRadioBearerSetupRequestParameters)
deriving DecidableEq

/-- Ways a handler stops early: one per assertion of the source. -/
inductive Failure where
  | wrongSocket
  | missingTag
  | flowNotFound
  | teidNotFound
  | unknownImsi
  | sendFailed
deriving DecidableEq

/-- Member variables of `EpcEnbApplication` that differ between states or instances. The
sockets are kept by identity. -/
structure EpcEnbApplication where
  m_lteSocket : Nat
  m_s1uSocket : Nat
  m_sgwAddress : Nat
  m_rbidTeidMap : List (EpsFlowId_t × Nat)
  m_teidRbidMap : List (Nat × EpsFlowId_t)
  m_imsiRntiMap : List (Nat × Nat)
deriving DecidableEq

/-- Result of a handler: the members afterwards, what was sent, and the assertion that
stopped it (if any). -/
structure Outcome where
  state : EpcEnbApplication
  sent : List Event
  failure : Option Failure
deriving DecidableEq

namespace EpcEnbApplication

/-- Member `m_gtpuUdpPort`: the constructor sets it to 2152 ("fixed by the standard") and
nothing writes it afterwards, so it is the same in every state. -/
def m_gtpuUdpPort (_st : EpcEnbApplication) : Nat := 2152

/-- Constructor `EpcEnbApplication (lteSocket, s1uSocket, sgwAddress)`: the three maps are
empty. -/
def create (lteSocket s1uSocket sgwAddress : Nat) : EpcEnbApplication :=
  { m_lteSocket := lteSocket
    m_s1uSocket := s1uSocket
    m_sgwAddress := sgwAddress
    m_rbidTeidMap := []
    m_teidRbidMap := []
    m_imsiRntiMap := [] }

/-- Handler `ErabSetupRequest (teid, imsi, bearer)`. -/
def ErabSetupRequest (st : EpcEnbApplication) (teid imsi : Nat) (bearer : EpsBearer) : Outcome :=
  match StdMap.find natLt imsi st.m_imsiRntiMap with
  | none => { state := st, sent := [], failure := some Failure.unknownImsi }
  | some rnti =>
    { state := st
      sent := [Event.dataRadioBearerSetupRequest { rnti := rnti, bearer := bearer, gtpTeid := teid }]
      failure := none }

/-- Handler `DoS1BearerSetupRequest (params)`. -/
def DoS1BearerSetupRequest (st : EpcEnbApplication) (params : S1BearerSetupRequestParameters) :
    EpcEnbApplication :=
  let rbid : EpsFlowId_t := { m_rnti := params.rnti, m_bid := params.bid }
  { st with
    m_rbidTeidMap := StdMap.assign EpsFlowId_t.lt rbid params.gtpTeid st.m_rbidTeidMap
    m_teidRbidMap := StdMap.assign natLt params.gtpTeid rbid st.m_teidRbidMap }

/-- Handler `DoInitialUeMessage (imsi, rnti)`. -/
def DoInitialUeMessage (st : EpcEnbApplication) (imsi rnti : Nat) : EpcEnbApplication :=
  { st with m_imsiRntiMap := StdMap.assign natLt imsi rnti st.m_imsiRntiMap }

/-- Sender `SendToLteSocket (packet, rnti, bid)`; `lteSend` is the value
`m_lteSocket->Send (packet)` returns. -/
def SendToLteSocket (lteSend : Packet → Int) (st : EpcEnbApplication) (packet : Packet)
    (rnti bid : Nat) : Outcome :=
  let tag : EpsBearerTag := { rnti := rnti, bid := bid }
  let packet := packet.AddEpsBearerTag tag
  let sentBytes := lteSend packet
  { state := st
    sent := [Event.lteSend packet]
    failure := if sentBytes > 0 then none else some Failure.sendFailed }

/-- The header `gtpu` that `SendToS1uSocket (packet, teid)` sets up before `AddHeader`:
default-constructed, then `SetTeid (teid)`, then
`SetLength (packet->GetSize () + gtpu.GetSerializedSize () - 8)`, the argument being
computed in `uint32_t`. -/
def SendToS1uSocket.gtpu (G : GtpuCodec) (packet : Packet) (teid : Nat) : GtpuHeader :=
  let gtpu := G.ctor
  let gtpu := gtpu.SetTeid teid
  gtpu.SetLength (((packet.GetSize + G.GetSerializedSize gtpu) % 2 ^ 32 + 2 ^ 32 - 8) % 2 ^ 32)

/-- Sender `SendToS1uSocket (packet, teid)`. -/
def SendToS1uSocket (G : GtpuCodec) (st : EpcEnbApplication) (packet : Packet) (teid : Nat) :
    Outcome :=
  let gtpu := SendToS1uSocket.gtpu G packet teid
  let packet := packet.AddHeader G gtpu
  let flags := 0
  { state := st
    sent := [Event.s1uSendTo packet flags
      { ipv4 := st.m_sgwAddress, port := st.m_gtpuUdpPort }]
    failure := none }

/-- Handler `RecvFromLteSocket (socket)`; `packet` is what `socket->Recv ()` returns. -/
def RecvFromLteSocket (G : GtpuCodec) (st : EpcEnbApplication) (socket : Nat) (packet : Packet) :
    Outcome :=
  if socket ≠ st.m_lteSocket then
    { state := st, sent := [], failure := some Failure.wrongSocket }
  else
    let packet := packet.RemoveSocketAddressTag
    match packet.RemoveEpsBearerTag with
    | (none, _) => { state := st, sent := [], failure := some Failure.missingTag }
    | (some tag, packet) =>
      let flowId : EpsFlowId_t := { m_rnti := tag.rnti, m_bid := tag.bid }
      match StdMap.find EpsFlowId_t.lt flowId st.m_rbidTeidMap with
      | none => { state := st, sent := [], failure := some Failure.flowNotFound }
      | some teid => SendToS1uSocket G st packet teid

/-- Handler `RecvFromS1uSocket (socket)`; `packet` is what `socket->Recv ()` returns. The
value of `packet->RemoveHeader (gtpu)` is not tested: when no header can be read,
`gtpu` stays as it was default-constructed and the packet keeps its bytes, and the
handler goes on to `GetTeid` and `find` all the same. -/
def RecvFromS1uSocket (G : GtpuCodec) (lteSend : Packet → Int) (st : EpcEnbApplication)
    (socket : Nat) (packet : Packet) : Outcome :=
  if socket ≠ st.m_s1uSocket then
    { state := st, sent := [], failure := some Failure.wrongSocket }
  else
    let gtpu := G.ctor
    let removed := (packet.RemoveHeader G).getD (gtpu, packet)
    let gtpu := removed.1
    let packet := removed.2
    let teid := gtpu.GetTeid
    match StdMap.find natLt teid st.m_teidRbidMap with
    | none => { state := st, sent := [], failure := some Failure.teidNotFound }
    | some rbid =>
      let packet := packet.RemoveSocketAddressTag
      SendToLteSocket lteSend st packet rbid.m_rnti rbid.m_bid

/-- Control-plane calls that write the tables. -/
inductive Call where
  | initialUeMessage (imsi rnti : Nat)
  | s1BearerSetupRequest (params : S1BearerSetupRequestParameters)
deriving DecidableEq

/-- One control-plane call applied to the members. -/
def step (st : EpcEnbApplication) : Call → EpcEnbApplication
  | Call.initialUeMessage imsi rnti => DoInitialUeMessage st imsi rnti
  | Call.s1BearerSetupRequest params => DoS1BearerSetupRequest st params

/-- A sequence of control-plane calls applied in order. -/
def run (st : EpcEnbApplication) (calls : List Call) : EpcEnbApplication :=
  calls.foldl step st

/-- The (flow key, teid) pairs registered by a sequence of calls, in call order. -/
def registered : List Call → List (EpsFlowId_t × Nat)
  | [] => []
  | Call.initialUeMessage _ _ :: rest => registered rest
  | Call.s1BearerSetupRequest params :: rest =>
    ({ m_rnti := params.rnti, m_bid := params.bid }, params.gtpTeid) :: registered rest

/-- No flow key is registered with two teids and no teid with two flow keys. -/
def Consistent (calls : List Call) : Prop :=
  ∀ p ∈ registered calls, ∀ q ∈ registered calls, (p.1 = q.1 ↔ p.2 = q.2)

instance (calls : List Call) : Decidable (Consistent calls) := by
  unfold Consistent
  infer_instance

/-- The two bearer tables are inverse of each other: every entry of `m_rbidTeidMap` has its
mirror entry in `m_teidRbidMap`, and the other way round. -/
def TablesInverse (st : EpcEnbApplication) : Prop :=
  (∀ k t, StdMap.find EpsFlowId_t.lt k st.m_rbidTeidMap = some t →
      StdMap.find natLt t st.m_teidRbidMap = some k) ∧
  (∀ t k, StdMap.find natLt t st.m_teidRbidMap = some k →
      StdMap.find EpsFlowId_t.lt k st.m_rbidTeidMap = some t)

/-- The bearer tables hold exactly the registered pairs. -/
def TablesExact (st : EpcEnbApplication) (calls : List Call) : Prop :=
  (∀ k t, StdMap.find EpsFlowId_t.lt k st.m_rbidTeidMap = some t ↔ (k, t) ∈ registered calls) ∧
  (∀ t k, StdMap.find natLt t st.m_teidRbidMap = some k ↔ (k, t) ∈ registered calls)

/-- Every operation of the application that can be invoked on it from outside. -/
inductive Operation where
  | control (call : Call)
  | erabSetupRequest (teid imsi : Nat) (bearer : EpsBearer)
  | recvFromLteSocket (socket : Nat) (packet : Packet)
  | recvFromS1uSocket (socket : Nat) (packet : Packet)
deriving DecidableEq

/-- The members after one operation. -/
def exec (G : GtpuCodec) (lteSend : Packet → Int) (st : EpcEnbApplication) :
    Operation → EpcEnbApplication
  | Operation.control call => step st call
  | Operation.erabSetupRequest teid imsi bearer => (ErabSetupRequest st teid imsi bearer).state
  | Operation.recvFromLteSocket socket packet => (RecvFromLteSocket G st socket packet).state
  | Operation.recvFromS1uSocket socket packet =>
    (RecvFromS1uSocket G lteSend st socket packet).state

/-- The members after a sequence of operations applied in order. -/
def execAll (G : GtpuCodec) (lteSend : Packet → Int) (st : EpcEnbApplication)
    (ops : List Operation) : EpcEnbApplication :=
  ops.foldl (exec G lteSend) st

/-- Every teid stored as a value of `m_rbidTeidMap` is a key of `m_teidRbidMap`, and every flow
key stored as a value of `m_teidRbidMap` is a key of `m_rbidTeidMap`. -/
def TablesClosed (st : EpcEnbApplication) : Prop :=
  (∀ k t, StdMap.find EpsFlowId_t.lt k st.m_rbidTeidMap = some t →
      ∃ k2, StdMap.find natLt t st.m_teidRbidMap = some k2) ∧
  (∀ t k, StdMap.find natLt t st.m_teidRbidMap = some k →
      ∃ t2, StdMap.find EpsFlowId_t.lt k st.m_rbidTeidMap = some t2)

end EpcEnbApplication

/-! ## EpcHelper: the X2 interface registry -/

/-- Key `EpcHelper::EpcX2NodePeers` of `m_x2Interfaces`: the two eNB peers, kept by
identity. -/
structure EpcX2NodePeers where
  m_enbPeer1 : Nat
  m_enbPeer2 : Nat
deriving DecidableEq

/-- Value `EpcHelper::EpcX2ApplicationPairs` of `m_x2Interfaces`: the two X2 handler
instances, kept by identity. -/
structure EpcX2ApplicationPairs where
  m_x2AppPair1 : Nat
  m_x2AppPair2 : Nat
deriving DecidableEq

/-- Modelled from the spec: `EpcX2NodePeers::operator<`, declared in `epc-helper.h` with its
body not among the sources. The key is an unordered pair of station identities
canonicalized by the total order over station identity: the smaller peers are
compared first, then the larger ones. -/
def EpcX2NodePeers.lt (a b : EpcX2NodePeers) : Bool :=
  decide (min a.m_enbPeer1 a.m_enbPeer2 < min b.m_enbPeer1 b.m_enbPeer2) ||
    ((min a.m_enbPeer1 a.m_enbPeer2 == min b.m_enbPeer1 b.m_enbPeer2) &&
      decide (max a.m_enbPeer1 a.m_enbPeer2 < max b.m_enbPeer1 b.m_enbPeer2))

/-- Result of `AddX2Interface`: the registry afterwards, the handler pair registered for the
two stations, and whether that pair was registered before the call. -/
structure AddX2Result where
  m_x2Interfaces : List (EpcX2NodePeers × EpcX2ApplicationPairs)
  handlers : EpcX2ApplicationPairs
  duplicate : Bool
deriving DecidableEq

/-- Modelled from the spec: `EpcHelper::AddX2Interface (enbNode1, enbNode2)`, declared in
`epc-helper.h` with its body not among the sources. The key is built from the
two stations; when the registry already holds an entry for it, that registration
is what the call observes and nothing is created; otherwise the newly
constructed handler pair `created` is stored under the key. -/
def AddX2Interface (m_x2Interfaces : List (EpcX2NodePeers × EpcX2ApplicationPairs))
    (enbNode1 enbNode2 : Nat) (created : EpcX2ApplicationPairs) : AddX2Result :=
  let key : EpcX2NodePeers := { m_enbPeer1 := enbNode1, m_enbPeer2 := enbNode2 }
  match StdMap.find EpcX2NodePeers.lt key m_x2Interfaces with
  | some existing =>
    { m_x2Interfaces := m_x2Interfaces, handlers := existing, duplicate := true }
  | none =>
    { m_x2Interfaces := StdMap.assign EpcX2NodePeers.lt key created m_x2Interfaces
      handlers := created
      duplicate := false }

/-! ## A concrete tunnel header codec -/

namespace GtpuSpec

/-- Modelled from the spec: optional fields are gated by flag bits; bit S (value 2) announces
the sequence number field (2 bytes). -/
def hasSequenceNumber (flags : Nat) : Bool := flags / 2 % 2 == 1

/-- Modelled from the spec: bit PN (value 1) announces the N-PDU number field (1 byte). -/
def hasNPduNumber (flags : Nat) : Bool := flags % 2 == 1

/-- Modelled from the spec: bit E (value 4) announces the extension header type field
(1 byte). -/
def hasExtension (flags : Nat) : Bool := flags / 4 % 2 == 1

/-- Modelled from the spec: number of bytes taken by the optional fields that the flag bits
announce. -/
def optionalSize (flags : Nat) : Nat :=
  (if hasSequenceNumber flags then 2 else 0) + (if hasNPduNumber flags then 1 else 0)
    + (if hasExtension flags then 1 else 0)

/-- Modelled from the spec: `GtpuHeader::GetSerializedSize`, the 8 mandatory bytes plus the
optional fields actually serialized. -/
def GetSerializedSize (h : GtpuHeader) : Nat := 8 + optionalSize h.flags

/-- Modelled from the spec: `GtpuHeader::Serialize`, the wire header: flags byte, message
type byte, 16-bit length, 32-bit teid (network byte order), then the optional
fields gated by the flag bits. -/
def Serialize (h : GtpuHeader) : List Nat :=
  [h.flags % 256, h.messageType % 256, h.length / 256 % 256, h.length % 256,
    h.teid / 16777216 % 256, h.teid / 65536 % 256, h.teid / 256 % 256, h.teid % 256]
  ++ (if hasSequenceNumber h.flags then [h.sequenceNumber / 256 % 256, h.sequenceNumber % 256]
      else [])
  ++ (if hasNPduNumber h.flags then [h.nPduNumber % 256] else [])
  ++ (if hasExtension h.flags then [h.nextExtensionType % 256] else [])

/-- Modelled from the spec: `GtpuHeader::Deserialize`, which fails when the buffer is shorter
than the mandatory 8 bytes or than the optional fields its flags announce, and
otherwise returns the header with the number of bytes it occupies. -/
def Deserialize (bytes : List Nat) : Option (GtpuHeader × Nat) :=
  match bytes with
  | f :: mt :: l1 :: l0 :: t3 :: t2 :: t1 :: t0 :: rest =>
    if rest.length < optionalSize f then none
    else
      let seqBytes := if hasSequenceNumber f then 2 else 0
      let rest1 := rest.drop seqBytes
      let rest2 := rest1.drop (if hasNPduNumber f then 1 else 0)
      some
        ({ flags := f
           messageType := mt
           length := l1 * 256 + l0
           teid := t3 * 16777216 + t2 * 65536 + t1 * 256 + t0
           sequenceNumber := if hasSequenceNumber f then rest.headD 0 * 256 + (rest.drop 1).headD 0
                             else 0
           nPduNumber := if hasNPduNumber f then rest1.headD 0 else 0
           nextExtensionType := if hasExtension f then rest2.headD 0 else 0 },
         8 + optionalSize f)
  | _ => none

/-- Modelled from the spec: the default-constructed `GtpuHeader`: protocol version 1, no
optional field announced, message type 255 (user data), every other field 0. -/
def ctor : GtpuHeader :=
  { flags := 48, messageType := 255, length := 0, teid := 0, sequenceNumber := 0,
    nPduNumber := 0, nextExtensionType := 0 }

/-- Modelled from the spec: the header codec assembled from the definitions above. -/
def codec : GtpuCodec :=
  { ctor := ctor
    GetSerializedSize := GetSerializedSize
    Serialize := Serialize
    Deserialize := Deserialize
    mandatory := fun h => Nat.le_add_right 8 (optionalSize h.flags) }

end GtpuSpec

/-! ## Lemmas on std::map -/

namespace StdMap

theorem find_assign_self {K V : Type} (lt : K → K → Bool) (hirr : ∀ a, lt a a = false)
    (k : K) (v : V) (m : List (K × V)) : find lt k (assign lt k v m) = some v := by
  induction m with
  | nil => simp [assign, find, hirr]
  | cons e rest ih =>
    obtain ⟨k1, v1⟩ := e
    by_cases h1 : lt k1 k = true
    · simp [assign, find, h1, ih]
    · by_cases h2 : lt k k1 = true
      · simp [assign, find, h1, h2, hirr]
      · simp [assign, find, h1, h2]

theorem find_assign_ne {K V : Type} (lt : K → K → Bool) (hlt : StrictTotal lt)
    (k j : K) (v : V) (hne : j ≠ k) (m : List (K × V)) :
    find lt j (assign lt k v m) = find lt j m := by
  induction m with
  | nil =>
    have h : ¬ (lt k j = false ∧ lt j k = false) := fun h => hne (hlt.tri j k h.2 h.1)
    by_cases h1 : lt k j = true
    · simp [assign, find, h1]
    · by_cases h2 : lt j k = true
      · simp [assign, find, h1, h2]
      · exact absurd ⟨by simpa using h1, by simpa using h2⟩ h
  | cons e rest ih =>
    obtain ⟨k1, v1⟩ := e
    by_cases h1 : lt k1 k = true
    · by_cases h3 : lt k1 j = true
      · simp [assign, find, h1, h3, ih]
      · simp [assign, find, h1, h3]
    · by_cases h2 : lt k k1 = true
      · by_cases h4 : lt k j = true
        · simp [assign, find, h1, h2, h4]
        · by_cases h5 : lt j k = true
          · have h6 : lt j k1 = true := hlt.trans j k k1 h5 h2
            have h7 : lt k1 j = false := by
              by_contra h8
              have h9 := hlt.trans j k1 j h6 (by simpa using h8)
              rw [hlt.irrefl] at h9
              exact Bool.noConfusion h9
            simp [assign, find, h1, h2, h4, h5, h6, h7]
          · exact absurd (hlt.tri j k (by simpa using h5) (by simpa using h4)) hne
      · have hk : k1 = k := hlt.tri k1 k (by simpa using h1) (by simpa using h2)
        subst hk
        by_cases h3 : lt k1 j = true
        · simp [assign, find, hlt.irrefl, h3]
        · by_cases h4 : lt j k1 = true
          · simp [assign, find, hlt.irrefl, h3, h4]
          · exact absurd (hlt.tri j k1 (by simpa using h4) (by simpa using h3)) hne

theorem assign_assign_self {K V : Type} (lt : K → K → Bool) (hirr : ∀ a, lt a a = false)
    (k : K) (v : V) (m : List (K × V)) :
    assign lt k v (assign lt k v m) = assign lt k v m := by
  induction m with
  | nil => simp [assign, hirr]
  | cons e rest ih =>
    obtain ⟨k1, v1⟩ := e
    by_cases h1 : lt k1 k = true
    · simp [assign, h1, ih]
    · by_cases h2 : lt k k1 = true
      · simp [assign, h1, h2, hirr]
      · simp [assign, h1, h2]

end StdMap

theorem natLt_strictTotal : StdMap.StrictTotal natLt where
  irrefl a := by simp [natLt]
  trans a b c h1 h2 := by
    simp only [natLt, decide_eq_true_eq] at *
    omega
  tri a b h1 h2 := by
    simp only [natLt, decide_eq_false_iff_not] at *
    omega

theorem flowLt_strictTotal : StdMap.StrictTotal EpsFlowId_t.lt where
  irrefl a := by simp [EpsFlowId_t.lt]
  trans a b c h1 h2 := by
    simp only [EpsFlowId_t.lt, Bool.or_eq_true, Bool.and_eq_true, decide_eq_true_eq,
      beq_iff_eq] at *
    omega
  tri a b h1 h2 := by
    obtain ⟨ar, ab⟩ := a
    obtain ⟨br, bb⟩ := b
    simp only [EpsFlowId_t.lt, Bool.or_eq_false_iff, Bool.and_eq_false_iff,
      decide_eq_false_iff_not, beq_eq_false_iff_ne, ne_eq] at h1 h2
    have hr : ar = br := by omega
    have hb : ab = bb := by omega
    rw [hr, hb]

/-! ## Control plane: the tables -/

namespace EpcEnbApplication

theorem run_append_singleton (st : EpcEnbApplication) (calls : List Call) (c : Call) :
    run st (calls ++ [c]) = step (run st calls) c := by
  simp [run, List.foldl_append]

theorem registered_append (a b : List Call) :
    registered (a ++ b) = registered a ++ registered b := by
  induction a with
  | nil => simp [registered]
  | cons c rest ih =>
    cases c with
    | initialUeMessage imsi rnti => simpa [registered] using ih
    | s1BearerSetupRequest params => simpa [registered] using ih

theorem consistent_of_append (a b : List Call) (h : Consistent (a ++ b)) : Consistent a := by
  intro p hp q hq
  have hp2 : p ∈ registered (a ++ b) := by
    rw [registered_append]
    exact List.mem_append_left _ hp
  have hq2 : q ∈ registered (a ++ b) := by
    rw [registered_append]
    exact List.mem_append_left _ hq
  exact h p hp2 q hq2

theorem tablesExact_run (lteSocket s1uSocket sgwAddress : Nat) (calls : List Call)
    (h : Consistent calls) :
    TablesExact (run (create lteSocket s1uSocket sgwAddress) calls) calls := by
  induction calls using List.reverseRecOn with
  | nil => constructor <;> intros <;> simp [run, create, StdMap.find, registered]
  | append_singleton cs c ih =>
    have ih2 := ih (consistent_of_append cs [c] h)
    rw [run_append_singleton]
    cases c with
    | initialUeMessage imsi rnti =>
      have hreg : registered (cs ++ [Call.initialUeMessage imsi rnti]) = registered cs := by
        simp [registered_append, registered]
      unfold TablesExact
      rw [hreg]
      exact ih2
    | s1BearerSetupRequest params =>
      have hreg : registered (cs ++ [Call.s1BearerSetupRequest params])
          = registered cs ++ [(⟨params.rnti, params.bid⟩, params.gtpTeid)] := by
        simp [registered_append, registered]
      have hcons := h
      unfold Consistent at hcons
      rw [hreg] at hcons
      unfold TablesExact
      rw [hreg]
      have hlast : ((⟨params.rnti, params.bid⟩ : EpsFlowId_t), params.gtpTeid)
          ∈ registered cs ++ [(⟨params.rnti, params.bid⟩, params.gtpTeid)] := by simp
      constructor
      · intro k t
        by_cases hk : k = ⟨params.rnti, params.bid⟩
        · subst hk
          simp only [step, DoS1BearerSetupRequest]
          rw [StdMap.find_assign_self _ flowLt_strictTotal.irrefl]
          constructor
          · intro ht
            injection ht with ht
            subst ht
            exact hlast
          · intro hm
            rcases List.mem_append.1 hm with hm1 | hm1
            · have := (hcons _ (List.mem_append_left _ hm1) _ hlast).1 rfl
              simp only at this
              rw [this]
            · simp only [List.mem_singleton, Prod.mk.injEq] at hm1
              rw [hm1.2]
        · simp only [step, DoS1BearerSetupRequest]
          rw [StdMap.find_assign_ne _ flowLt_strictTotal _ _ _ hk, ih2.1 k t]
          simp [hk]
      · intro t k
        by_cases ht : t = params.gtpTeid
        · subst ht
          simp only [step, DoS1BearerSetupRequest]
          rw [StdMap.find_assign_self _ natLt_strictTotal.irrefl]
          constructor
          · intro hk
            injection hk with hk
            subst hk
            exact hlast
          · intro hm
            rcases List.mem_append.1 hm with hm1 | hm1
            · have := (hcons _ (List.mem_append_left _ hm1) _ hlast).2 rfl
              simp only at this
              rw [this]
            · simp only [List.mem_singleton, Prod.mk.injEq] at hm1
              rw [hm1.1]
        · simp only [step, DoS1BearerSetupRequest]
          rw [StdMap.find_assign_ne _ natLt_strictTotal _ _ _ ht, ih2.2 t k]
          simp [ht]

/-- C1 (as stated, refuted): registering the flow key (7, 3) first with teid 1000 and then
with teid 2000 reaches a state whose tables are not inverse of each other:
`m_teidRbidMap` still maps 1000 to (7, 3) while `m_rbidTeidMap` maps (7, 3) to 2000. -/
theorem tables_inverse_fails_after_rekey :
    ¬ TablesInverse (run (create 1 2 99)
        [Call.initialUeMessage 42 7,
         Call.s1BearerSetupRequest { rnti := 7, bid := 3, gtpTeid := 1000 },
         Call.s1BearerSetupRequest { rnti := 7, bid := 3, gtpTeid := 2000 }]) := by
  intro h
  have h2 := h.2 1000 { m_rnti := 7, m_bid := 3 } (by decide)
  revert h2
  decide

/-- C1 (amended): in every state reached from the constructed application by a sequence of
DoInitialUeMessage and DoS1BearerSetupRequest calls that registers no flow key
with two different teids and no teid for two different flow keys, the two bearer
tables are inverse of each other, and every registered (flow key, teid) pair
resolves in both directions. -/
theorem tables_inverse_of_consistent (lteSocket s1uSocket sgwAddress : Nat) (calls : List Call)
    (h : Consistent calls) :
    TablesInverse (run (create lteSocket s1uSocket sgwAddress) calls) ∧
    ∀ p ∈ registered calls,
      StdMap.find EpsFlowId_t.lt p.1
          (run (create lteSocket s1uSocket sgwAddress) calls).m_rbidTeidMap = some p.2 ∧
      StdMap.find natLt p.2
          (run (create lteSocket s1uSocket sgwAddress) calls).m_teidRbidMap = some p.1 := by
  have hx := tablesExact_run lteSocket s1uSocket sgwAddress calls h
  refine ⟨⟨?_, ?_⟩, ?_⟩
  · intro k t hk
    exact (hx.2 t k).2 ((hx.1 k t).1 hk)
  · intro t k ht
    exact (hx.1 k t).2 ((hx.2 t k).1 ht)
  · intro p hp
    exact ⟨(hx.1 p.1 p.2).2 hp, (hx.2 p.2 p.1).2 hp⟩

/-- Witness for C1 (amended): attach 42 as 7, register (7, 3) with 1000 and (7, 4) with 1001. -/
theorem tables_inverse_of_consistent_witness :
    Consistent [Call.initialUeMessage 42 7,
        Call.s1BearerSetupRequest { rnti := 7, bid := 3, gtpTeid := 1000 },
        Call.s1BearerSetupRequest { rnti := 7, bid := 4, gtpTeid := 1001 }] ∧
    TablesInverse (run (create 1 2 99) [Call.initialUeMessage 42 7,
        Call.s1BearerSetupRequest { rnti := 7, bid := 3, gtpTeid := 1000 },
        Call.s1BearerSetupRequest { rnti := 7, bid := 4, gtpTeid := 1001 }]) ∧
    StdMap.find EpsFlowId_t.lt { m_rnti := 7, m_bid := 3 }
        (run (create 1 2 99) [Call.initialUeMessage 42 7,
          Call.s1BearerSetupRequest { rnti := 7, bid := 3, gtpTeid := 1000 },
          Call.s1BearerSetupRequest { rnti := 7, bid := 4, gtpTeid := 1001 }]).m_rbidTeidMap
      = some 1000 ∧
    StdMap.find natLt 1000
        (run (create 1 2 99) [Call.initialUeMessage 42 7,
          Call.s1BearerSetupRequest { rnti := 7, bid := 3, gtpTeid := 1000 },
          Call.s1BearerSetupRequest { rnti := 7, bid := 4, gtpTeid := 1001 }]).m_teidRbidMap
      = some { m_rnti := 7, m_bid := 3 } :=
  ⟨by decide, (tables_inverse_of_consistent 1 2 99 _ (by decide)).1,
    (tables_inverse_of_consistent 1 2 99 _ (by decide)).2
      ({ m_rnti := 7, m_bid := 3 }, 1000) (by decide)⟩

/-- C2: whatever the tables held before, right after DoS1BearerSetupRequest (rnti, bid, teid)
the lookup of (rnti, bid) in `m_rbidTeidMap` gives teid and the lookup of teid in
`m_teidRbidMap` gives (rnti, bid); the call is total (it has no failure branch). -/
theorem DoS1BearerSetupRequest_resolves (st : EpcEnbApplication) (rnti bid teid : Nat) :
    StdMap.find EpsFlowId_t.lt { m_rnti := rnti, m_bid := bid }
        (DoS1BearerSetupRequest st { rnti := rnti, bid := bid, gtpTeid := teid }).m_rbidTeidMap
      = some teid ∧
    StdMap.find natLt teid
        (DoS1BearerSetupRequest st { rnti := rnti, bid := bid, gtpTeid := teid }).m_teidRbidMap
      = some { m_rnti := rnti, m_bid := bid } := by
  constructor
  · exact StdMap.find_assign_self _ flowLt_strictTotal.irrefl _ _ _
  · exact StdMap.find_assign_self _ natLt_strictTotal.irrefl _ _ _

/-- C9: registration is last-write-wins and keeps the stale reverse entry: after
DoS1BearerSetupRequest (rnti, bid, t1) followed by DoS1BearerSetupRequest
(rnti, bid, t2) with t1 ≠ t2, `m_rbidTeidMap` maps (rnti, bid) to t2, and
`m_teidRbidMap` maps both t2 and t1 to (rnti, bid). -/
theorem DoS1BearerSetupRequest_rekey (st : EpcEnbApplication) (rnti bid t1 t2 : Nat)
    (hne : t1 ≠ t2) :
    StdMap.find EpsFlowId_t.lt { m_rnti := rnti, m_bid := bid }
        (DoS1BearerSetupRequest
          (DoS1BearerSetupRequest st { rnti := rnti, bid := bid, gtpTeid := t1 })
          { rnti := rnti, bid := bid, gtpTeid := t2 }).m_rbidTeidMap = some t2 ∧
    StdMap.find natLt t2
        (DoS1BearerSetupRequest
          (DoS1BearerSetupRequest st { rnti := rnti, bid := bid, gtpTeid := t1 })
          { rnti := rnti, bid := bid, gtpTeid := t2 }).m_teidRbidMap
      = some { m_rnti := rnti, m_bid := bid } ∧
    StdMap.find natLt t1
        (DoS1BearerSetupRequest
          (DoS1BearerSetupRequest st { rnti := rnti, bid := bid, gtpTeid := t1 })
          { rnti := rnti, bid := bid, gtpTeid := t2 }).m_teidRbidMap
      = some { m_rnti := rnti, m_bid := bid } := by
  refine ⟨?_, ?_, ?_⟩
  · exact StdMap.find_assign_self _ flowLt_strictTotal.irrefl _ _ _
  · exact StdMap.find_assign_self _ natLt_strictTotal.irrefl _ _ _
  · simp only [DoS1BearerSetupRequest]
    rw [StdMap.find_assign_ne _ natLt_strictTotal _ _ _ hne]
    exact StdMap.find_assign_self _ natLt_strictTotal.irrefl _ _ _

/-- Witness for C9: the flow key (7, 3) registered with 1000 and then with 2000, on top of a
state that already holds another bearer. -/
theorem DoS1BearerSetupRequest_rekey_witness :
    (1000 : Nat) ≠ 2000 ∧
    StdMap.find EpsFlowId_t.lt { m_rnti := 7, m_bid := 3 }
        (DoS1BearerSetupRequest
          (DoS1BearerSetupRequest
            (run (create 1 2 99)
              [Call.s1BearerSetupRequest { rnti := 5, bid := 1, gtpTeid := 1500 }])
            { rnti := 7, bid := 3, gtpTeid := 1000 })
          { rnti := 7, bid := 3, gtpTeid := 2000 }).m_rbidTeidMap = some 2000 ∧
    StdMap.find natLt 2000
        (DoS1BearerSetupRequest
          (DoS1BearerSetupRequest
            (run (create 1 2 99)
              [Call.s1BearerSetupRequest { rnti := 5, bid := 1, gtpTeid := 1500 }])
            { rnti := 7, bid := 3, gtpTeid := 1000 })
          { rnti := 7, bid := 3, gtpTeid := 2000 }).m_teidRbidMap
      = some { m_rnti := 7, m_bid := 3 } ∧
    StdMap.find natLt 1000
        (DoS1BearerSetupRequest
          (DoS1BearerSetupRequest
            (run (create 1 2 99)
              [Call.s1BearerSetupRequest { rnti := 5, bid := 1, gtpTeid := 1500 }])
            { rnti := 7, bid := 3, gtpTeid := 1000 })
          { rnti := 7, bid := 3, gtpTeid := 2000 }).m_teidRbidMap
      = some { m_rnti := 7, m_bid := 3 } :=
  ⟨by decide, DoS1BearerSetupRequest_rekey _ 7 3 1000 2000 (by decide)⟩

/-- C10: DoInitialUeMessage is an idempotent upsert without failure branch: afterwards
`m_imsiRntiMap` maps imsi to rnti whatever it held before, and the same call
applied a second time leaves the state as it was after the first. -/
theorem DoInitialUeMessage_idempotent (st : EpcEnbApplication) (imsi rnti : Nat) :
    StdMap.find natLt imsi (DoInitialUeMessage st imsi rnti).m_imsiRntiMap = some rnti ∧
    DoInitialUeMessage (DoInitialUeMessage st imsi rnti) imsi rnti
      = DoInitialUeMessage st imsi rnti := by
  constructor
  · exact StdMap.find_assign_self _ natLt_strictTotal.irrefl _ _ _
  · simp only [DoInitialUeMessage]
    rw [StdMap.assign_assign_self _ natLt_strictTotal.irrefl]

/-! ## Data plane and indication -/

theorem getSize_replicate (n b : Nat) (satag : Option Nat) (tag : Option EpsBearerTag) :
    Packet.GetSize { bytes := List.replicate n b, socketAddressTag := satag, epsBearerTag := tag }
      = n :=
  List.length_replicate n b

theorem gtpu_length (G : GtpuCodec) (packet : Packet) (teid : Nat) :
    (SendToS1uSocket.gtpu G packet teid).length
      = ((packet.GetSize + G.GetSerializedSize (G.ctor.SetTeid teid)) % 2 ^ 32 + 2 ^ 32 - 8)
          % 2 ^ 32 % 2 ^ 16 :=
  rfl

/-- C3: when `m_rbidTeidMap` maps (rnti, bid) to t, RecvFromLteSocket on a packet tagged
(rnti, bid) with payload p sends exactly one datagram, on the S1-U socket, to
(`m_sgwAddress`, 2152): the serialized tunnel header, whose teid is t, followed by
p unchanged, with no tag left on it; nothing is sent on the LTE socket and no
assertion fails. -/
theorem RecvFromLteSocket_forwards (G : GtpuCodec) (st : EpcEnbApplication) (rnti bid t : Nat)
    (p : List Nat) (satag : Option Nat)
    (h : StdMap.find EpsFlowId_t.lt { m_rnti := rnti, m_bid := bid } st.m_rbidTeidMap = some t) :
    (SendToS1uSocket.gtpu G
        { bytes := p, socketAddressTag := none, epsBearerTag := none } t).GetTeid = t ∧
    RecvFromLteSocket G st st.m_lteSocket
        { bytes := p, socketAddressTag := satag, epsBearerTag := some { rnti := rnti, bid := bid } }
      = { state := st
          sent := [Event.s1uSendTo
            { bytes := G.Serialize (SendToS1uSocket.gtpu G
                { bytes := p, socketAddressTag := none, epsBearerTag := none } t) ++ p
              socketAddressTag := none
              epsBearerTag := none }
            0 { ipv4 := st.m_sgwAddress, port := 2152 }]
          failure := none } := by
  constructor
  · rfl
  · simp [RecvFromLteSocket, Packet.RemoveSocketAddressTag, Packet.RemoveEpsBearerTag, h,
      SendToS1uSocket, Packet.AddHeader, m_gtpuUdpPort]

/-- Witness for C3: after DoInitialUeMessage (42, 7) and DoS1BearerSetupRequest (7, 3, 1000),
a packet tagged (7, 3) with payload "hello". -/
theorem RecvFromLteSocket_forwards_witness :
    StdMap.find EpsFlowId_t.lt { m_rnti := 7, m_bid := 3 }
        (run (create 1 2 99) [Call.initialUeMessage 42 7,
          Call.s1BearerSetupRequest { rnti := 7, bid := 3, gtpTeid := 1000 }]).m_rbidTeidMap
      = some 1000 ∧
    RecvFromLteSocket GtpuSpec.codec
        (run (create 1 2 99) [Call.initialUeMessage 42 7,
          Call.s1BearerSetupRequest { rnti := 7, bid := 3, gtpTeid := 1000 }]) 1
        { bytes := [104, 101, 108, 108, 111], socketAddressTag := some 5,
          epsBearerTag := some { rnti := 7, bid := 3 } }
      = { state := run (create 1 2 99) [Call.initialUeMessage 42 7,
            Call.s1BearerSetupRequest { rnti := 7, bid := 3, gtpTeid := 1000 }]
          sent := [Event.s1uSendTo
            { bytes := GtpuSpec.Serialize (SendToS1uSocket.gtpu GtpuSpec.codec
                { bytes := [104, 101, 108, 108, 111], socketAddressTag := none,
                  epsBearerTag := none } 1000) ++ [104, 101, 108, 108, 111]
              socketAddressTag := none
              epsBearerTag := none }
            0 { ipv4 := 99, port := 2152 }]
          failure := none } :=
  ⟨by decide,
    (RecvFromLteSocket_forwards GtpuSpec.codec
      (run (create 1 2 99) [Call.initialUeMessage 42 7,
        Call.s1BearerSetupRequest { rnti := 7, bid := 3, gtpTeid := 1000 }])
      7 3 1000 [104, 101, 108, 108, 111] (some 5) (by decide)).2⟩

/-- C4: when the header read from a datagram carries a teid that `m_teidRbidMap` maps to
(rnti, bid), RecvFromS1uSocket sends exactly one packet, on the LTE socket: the
bytes that follow the header, tagged (rnti, bid); nothing is sent on the S1-U
socket. The only assertion that can still fail is the one on the value returned
by the LTE socket, after the packet was handed over. -/
theorem RecvFromS1uSocket_forwards (G : GtpuCodec) (lteSend : Packet → Int)
    (st : EpcEnbApplication) (dgram : Packet) (gtpu : GtpuHeader) (n t rnti bid : Nat)
    (p : List Nat)
    (hdec : G.Deserialize dgram.bytes = some (gtpu, n)) (hteid : gtpu.GetTeid = t)
    (hp : dgram.bytes.drop n = p)
    (hfind : StdMap.find natLt t st.m_teidRbidMap = some { m_rnti := rnti, m_bid := bid }) :
    RecvFromS1uSocket G lteSend st st.m_s1uSocket dgram
      = { state := st
          sent := [Event.lteSend
            { bytes := p, socketAddressTag := none,
              epsBearerTag := some { rnti := rnti, bid := bid } }]
          failure :=
            if lteSend { bytes := p, socketAddressTag := none,
                         epsBearerTag := some { rnti := rnti, bid := bid } } > 0
            then none else some Failure.sendFailed } := by
  subst hteid hp
  simp [RecvFromS1uSocket, Packet.RemoveHeader, hdec, hfind, SendToLteSocket,
    Packet.RemoveSocketAddressTag, Packet.AddEpsBearerTag]

/-- Witness for C4: with DoS1BearerSetupRequest (7, 3, 1000), the datagram made of the header
for teid 1000 and the payload "world". -/
theorem RecvFromS1uSocket_forwards_witness :
    RecvFromS1uSocket GtpuSpec.codec (fun q => q.GetSize)
        (run (create 1 2 99) [Call.initialUeMessage 42 7,
          Call.s1BearerSetupRequest { rnti := 7, bid := 3, gtpTeid := 1000 }]) 2
        { bytes := GtpuSpec.Serialize (SendToS1uSocket.gtpu GtpuSpec.codec
            { bytes := [119, 111, 114, 108, 100], socketAddressTag := none,
              epsBearerTag := none } 1000) ++ [119, 111, 114, 108, 100]
          socketAddressTag := some 5
          epsBearerTag := none }
      = { state := run (create 1 2 99) [Call.initialUeMessage 42 7,
            Call.s1BearerSetupRequest { rnti := 7, bid := 3, gtpTeid := 1000 }]
          sent := [Event.lteSend
            { bytes := [119, 111, 114, 108, 100], socketAddressTag := none,
              epsBearerTag := some { rnti := 7, bid := 3 } }]
          failure := none } :=
  RecvFromS1uSocket_forwards GtpuSpec.codec (fun q => q.GetSize)
    (run (create 1 2 99) [Call.initialUeMessage 42 7,
      Call.s1BearerSetupRequest { rnti := 7, bid := 3, gtpTeid := 1000 }])
    { bytes := GtpuSpec.Serialize (SendToS1uSocket.gtpu GtpuSpec.codec
        { bytes := [119, 111, 114, 108, 100], socketAddressTag := none,
          epsBearerTag := none } 1000) ++ [119, 111, 114, 108, 100]
      socketAddressTag := some 5
      epsBearerTag := none }
    { flags := 48, messageType := 255, length := 5, teid := 1000, sequenceNumber := 0,
      nPduNumber := 0, nextExtensionType := 0 }
    8 1000 7 3 [119, 111, 114, 108, 100] (by decide) (by decide) (by decide) (by decide)

/-- C5: when the teid of the header read from a datagram is not a key of `m_teidRbidMap`,
RecvFromS1uSocket stops at the lookup assertion (teid not found), sends nothing on
either socket and leaves the members as they were. -/
theorem RecvFromS1uSocket_unknown_teid (G : GtpuCodec) (lteSend : Packet → Int)
    (st : EpcEnbApplication) (dgram : Packet) (gtpu : GtpuHeader) (n : Nat)
    (hdec : G.Deserialize dgram.bytes = some (gtpu, n))
    (hfind : StdMap.find natLt gtpu.GetTeid st.m_teidRbidMap = none) :
    RecvFromS1uSocket G lteSend st st.m_s1uSocket dgram
      = { state := st, sent := [], failure := some Failure.teidNotFound } := by
  simp [RecvFromS1uSocket, Packet.RemoveHeader, hdec, hfind]

/-- Witness for C5: teid 1000 is registered, the datagram carries teid 2000. -/
theorem RecvFromS1uSocket_unknown_teid_witness :
    RecvFromS1uSocket GtpuSpec.codec (fun q => q.GetSize)
        (run (create 1 2 99) [Call.initialUeMessage 42 7,
          Call.s1BearerSetupRequest { rnti := 7, bid := 3, gtpTeid := 1000 }]) 2
        { bytes := [48, 255, 0, 5, 0, 0, 7, 208, 119, 111, 114, 108, 100]
          socketAddressTag := none
          epsBearerTag := none }
      = { state := run (create 1 2 99) [Call.initialUeMessage 42 7,
            Call.s1BearerSetupRequest { rnti := 7, bid := 3, gtpTeid := 1000 }]
          sent := []
          failure := some Failure.teidNotFound } :=
  RecvFromS1uSocket_unknown_teid GtpuSpec.codec (fun q => q.GetSize)
    (run (create 1 2 99) [Call.initialUeMessage 42 7,
      Call.s1BearerSetupRequest { rnti := 7, bid := 3, gtpTeid := 1000 }])
    { bytes := [48, 255, 0, 5, 0, 0, 7, 208, 119, 111, 114, 108, 100]
      socketAddressTag := none
      epsBearerTag := none }
    { flags := 48, messageType := 255, length := 5, teid := 2000, sequenceNumber := 0,
      nPduNumber := 0, nextExtensionType := 0 }
    8 (by decide) (by decide)

/-- C6: RecvFromLteSocket, called for the LTE socket, fails exactly when the packet carries no
EpsBearerTag or the tagged (rnti, bid) is not a key of `m_rbidTeidMap`; whenever it
fails nothing has been sent on either socket. -/
theorem RecvFromLteSocket_fails_iff (G : GtpuCodec) (st : EpcEnbApplication) (packet : Packet) :
    ((RecvFromLteSocket G st st.m_lteSocket packet).failure ≠ none ↔
      (packet.epsBearerTag = none ∨
        ∃ tag, packet.epsBearerTag = some tag ∧
          StdMap.find EpsFlowId_t.lt { m_rnti := tag.rnti, m_bid := tag.bid } st.m_rbidTeidMap
            = none)) ∧
    ((RecvFromLteSocket G st st.m_lteSocket packet).failure ≠ none →
      (RecvFromLteSocket G st st.m_lteSocket packet).sent = []) := by
  obtain ⟨bytes, satag, btag⟩ := packet
  cases btag with
  | none =>
    simp [RecvFromLteSocket, Packet.RemoveSocketAddressTag, Packet.RemoveEpsBearerTag]
  | some tag =>
    cases hf : StdMap.find EpsFlowId_t.lt { m_rnti := tag.rnti, m_bid := tag.bid }
        st.m_rbidTeidMap with
    | none =>
      simp [RecvFromLteSocket, Packet.RemoveSocketAddressTag, Packet.RemoveEpsBearerTag, hf]
    | some teid =>
      simp [RecvFromLteSocket, Packet.RemoveSocketAddressTag, Packet.RemoveEpsBearerTag, hf,
        SendToS1uSocket]

/-- C7: ErabSetupRequest fails exactly when imsi has no entry in `m_imsiRntiMap`, and then
emits no request; otherwise it emits exactly one DataRadioBearerSetupRequest whose
rnti is the one recorded for imsi, whose gtpTeid is the given teid and whose
bearer is the given bearer. -/
theorem ErabSetupRequest_spec (st : EpcEnbApplication) (teid imsi : Nat) (bearer : EpsBearer) :
    ((ErabSetupRequest st teid imsi bearer).failure ≠ none ↔
      StdMap.find natLt imsi st.m_imsiRntiMap = none) ∧
    (StdMap.find natLt imsi st.m_imsiRntiMap = none →
      ErabSetupRequest st teid imsi bearer
        = { state := st, sent := [], failure := some Failure.unknownImsi }) ∧
    (∀ rnti, StdMap.find natLt imsi st.m_imsiRntiMap = some rnti →
      ErabSetupRequest st teid imsi bearer
        = { state := st
            sent := [Event.dataRadioBearerSetupRequest
              { rnti := rnti, bearer := bearer, gtpTeid := teid }]
            failure := none }) := by
  cases hf : StdMap.find natLt imsi st.m_imsiRntiMap with
  | none => simp [ErabSetupRequest, hf]
  | some r => simp [ErabSetupRequest, hf]

/-- C8 (as stated, refuted): for a payload of 65536 bytes the 16-bit length field of the
header that SendToS1uSocket prepends is 0, not the payload size plus the
serialized size of the header minus 8 (65536). -/
theorem oversize_payload_length_wraps :
    (SendToS1uSocket.gtpu GtpuSpec.codec
        { bytes := List.replicate 65536 0, socketAddressTag := none, epsBearerTag := none }
        1000).length = 0 ∧
    Packet.GetSize
        { bytes := List.replicate 65536 0, socketAddressTag := none, epsBearerTag := none }
      + GtpuSpec.codec.GetSerializedSize (GtpuSpec.codec.ctor.SetTeid 1000) - 8 = 65536 := by
  have hs : GtpuSpec.codec.GetSerializedSize (GtpuSpec.codec.ctor.SetTeid 1000) = 8 := by decide
  constructor
  · rw [gtpu_length, hs, getSize_replicate]
    decide
  · rw [hs, getSize_replicate]

/-- C8 (amended): whenever the payload size plus the serialized size of the header minus 8 is
below 65536, the 16-bit length field of the header that SendToS1uSocket prepends
equals exactly that value; the header is the one serialized in front of the
payload of the datagram sent. -/
theorem SendToS1uSocket_length_field (G : GtpuCodec) (st : EpcEnbApplication) (packet : Packet)
    (teid : Nat)
    (h : packet.GetSize + G.GetSerializedSize (G.ctor.SetTeid teid) - 8 < 65536) :
    (SendToS1uSocket.gtpu G packet teid).length
      = packet.GetSize + G.GetSerializedSize (G.ctor.SetTeid teid) - 8 ∧
    (SendToS1uSocket G st packet teid).sent
      = [Event.s1uSendTo
          { packet with bytes := G.Serialize (SendToS1uSocket.gtpu G packet teid) ++ packet.bytes }
          0 { ipv4 := st.m_sgwAddress, port := 2152 }] := by
  constructor
  · have hm := G.mandatory (G.ctor.SetTeid teid)
    simp only [SendToS1uSocket.gtpu, GtpuHeader.SetLength]
    omega
  · rfl

/-- Witness for C8 (amended): the payload "hello" and teid 1000. -/
theorem SendToS1uSocket_length_field_witness :
    (SendToS1uSocket.gtpu GtpuSpec.codec
        { bytes := [104, 101, 108, 108, 111], socketAddressTag := none, epsBearerTag := none }
        1000).length = 5 :=
  (SendToS1uSocket_length_field GtpuSpec.codec (create 1 2 99)
    { bytes := [104, 101, 108, 108, 111], socketAddressTag := none, epsBearerTag := none }
    1000 (by decide)).1

end EpcEnbApplication

/-! ## The header codec -/

namespace GtpuSpec

theorem serialize_plain_length (h : GtpuHeader) (hf : h.flags = 48) :
    (Serialize h).length = 8 := by
  have h1 : hasSequenceNumber 48 = false := by decide
  have h2 : hasNPduNumber 48 = false := by decide
  have h3 : hasExtension 48 = false := by decide
  simp [Serialize, hf, h1, h2, h3]

theorem deserialize_serialize_plain (h : GtpuHeader) (payload : List Nat)
    (hf : h.flags = 48) (hmt : h.messageType < 256) (hlen : h.length < 2 ^ 16)
    (ht : h.teid < 2 ^ 32) (hs : h.sequenceNumber = 0) (hn : h.nPduNumber = 0)
    (he : h.nextExtensionType = 0) :
    Deserialize (Serialize h ++ payload) = some (h, 8) := by
  obtain ⟨flags, mt, len, teid, sq, np, ne⟩ := h
  simp only at hf hmt hlen ht hs hn he
  subst hf hs hn he
  have h1 : hasSequenceNumber 48 = false := by decide
  have h2 : hasNPduNumber 48 = false := by decide
  have h3 : hasExtension 48 = false := by decide
  have e1 : mt % 256 = mt := by omega
  have e2 : len / 256 % 256 * 256 + len % 256 = len := by omega
  have e3 : teid / 16777216 % 256 * 16777216 + teid / 65536 % 256 * 65536
      + teid / 256 % 256 * 256 + teid % 256 = teid := by omega
  simp [Serialize, Deserialize, optionalSize, h1, h2, h3, e1, e2, e3]

end GtpuSpec

namespace EpcEnbApplication

/-- C11: round-trip law for the header codec: for every 32-bit teid and every payload of any
length, removing the header (as RecvFromS1uSocket does) from the bytes obtained by
setting teid and length and adding the header (as SendToS1uSocket does) gives
back the header with the same teid and the payload unchanged. -/
theorem encode_decode_roundtrip (packet : Packet) (teid : Nat) (ht : teid < 2 ^ 32) :
    Packet.RemoveHeader GtpuSpec.codec
        (packet.AddHeader GtpuSpec.codec (SendToS1uSocket.gtpu GtpuSpec.codec packet teid))
      = some (SendToS1uSocket.gtpu GtpuSpec.codec packet teid, packet) ∧
    (SendToS1uSocket.gtpu GtpuSpec.codec packet teid).GetTeid = teid := by
  have hd := GtpuSpec.deserialize_serialize_plain
    (SendToS1uSocket.gtpu GtpuSpec.codec packet teid) packet.bytes rfl
    (show (255 : Nat) < 256 by decide) (Nat.mod_lt _ (by norm_num)) ht rfl rfl rfl
  have hlen := GtpuSpec.serialize_plain_length
    (SendToS1uSocket.gtpu GtpuSpec.codec packet teid) rfl
  have hc : GtpuSpec.codec.Deserialize = GtpuSpec.Deserialize := rfl
  have hs : GtpuSpec.codec.Serialize = GtpuSpec.Serialize := rfl
  constructor
  · have hdrop : List.drop 8 (GtpuSpec.Serialize
        (SendToS1uSocket.gtpu GtpuSpec.codec packet teid) ++ packet.bytes) = packet.bytes := by
      rw [← hlen]
      exact List.drop_left _ _
    simp only [Packet.RemoveHeader, Packet.AddHeader, hc, hs, hd, hdrop]
  · rfl

/-- Witness for C11: teid 1000 and the payload "hello". -/
theorem encode_decode_roundtrip_witness :
    Packet.RemoveHeader GtpuSpec.codec
        (Packet.AddHeader GtpuSpec.codec
          { bytes := [104, 101, 108, 108, 111], socketAddressTag := none, epsBearerTag := none }
          (SendToS1uSocket.gtpu GtpuSpec.codec
            { bytes := [104, 101, 108, 108, 111], socketAddressTag := none,
              epsBearerTag := none } 1000))
      = some (SendToS1uSocket.gtpu GtpuSpec.codec
            { bytes := [104, 101, 108, 108, 111], socketAddressTag := none,
              epsBearerTag := none } 1000,
          { bytes := [104, 101, 108, 108, 111], socketAddressTag := none,
            epsBearerTag := none }) :=
  (encode_decode_roundtrip
    { bytes := [104, 101, 108, 108, 111], socketAddressTag := none, epsBearerTag := none }
    1000 (by decide)).1

end EpcEnbApplication

/-! ## The X2 interface registry -/

namespace StdMap

theorem find_congr_key {K V : Type} (lt : K → K → Bool) (k j : K)
    (hl : ∀ x, lt x k = lt x j) (hr : ∀ x, lt k x = lt j x) (m : List (K × V)) :
    find lt k m = find lt j m := by
  induction m with
  | nil => rfl
  | cons e rest ih =>
    obtain ⟨k1, v1⟩ := e
    simp only [find, hl k1, hr k1, ih]

end StdMap

theorem EpcX2NodePeers.lt_irrefl (a : EpcX2NodePeers) : EpcX2NodePeers.lt a a = false := by
  simp [EpcX2NodePeers.lt]

theorem EpcX2NodePeers.lt_swap_right (x : EpcX2NodePeers) (a b : Nat) :
    EpcX2NodePeers.lt x { m_enbPeer1 := a, m_enbPeer2 := b }
      = EpcX2NodePeers.lt x { m_enbPeer1 := b, m_enbPeer2 := a } := by
  simp only [EpcX2NodePeers.lt, min_comm a b, max_comm a b]

theorem EpcX2NodePeers.lt_swap_left (x : EpcX2NodePeers) (a b : Nat) :
    EpcX2NodePeers.lt { m_enbPeer1 := a, m_enbPeer2 := b } x
      = EpcX2NodePeers.lt { m_enbPeer1 := b, m_enbPeer2 := a } x := by
  simp only [EpcX2NodePeers.lt, min_comm a b, max_comm a b]

theorem AddX2Interface_of_find (m : List (EpcX2NodePeers × EpcX2ApplicationPairs))
    (a b : Nat) (y e : EpcX2ApplicationPairs)
    (h : StdMap.find EpcX2NodePeers.lt { m_enbPeer1 := a, m_enbPeer2 := b } m = some e) :
    AddX2Interface m a b y = { m_x2Interfaces := m, handlers := e, duplicate := true } := by
  simp only [AddX2Interface, h]

theorem AddX2Interface_registers (m : List (EpcX2NodePeers × EpcX2ApplicationPairs))
    (a b : Nat) (x : EpcX2ApplicationPairs) :
    StdMap.find EpcX2NodePeers.lt { m_enbPeer1 := a, m_enbPeer2 := b }
        (AddX2Interface m a b x).m_x2Interfaces = some (AddX2Interface m a b x).handlers := by
  cases hf : StdMap.find EpcX2NodePeers.lt { m_enbPeer1 := a, m_enbPeer2 := b } m with
  | none =>
    simp only [AddX2Interface, hf]
    exact StdMap.find_assign_self _ EpcX2NodePeers.lt_irrefl _ _ _
  | some e => simp only [AddX2Interface, hf]

/-- C13: canonicalization law of the X2 registry: the keys built for (A, B) and for (B, A) are
equivalent under `EpcX2NodePeers::operator<` (neither is less than the other), so
AddX2Interface (B, A) after AddX2Interface (A, B) finds the registration of the
first call, returns its handler pair and leaves `m_x2Interfaces` as it was. -/
theorem AddX2Interface_canonical (m : List (EpcX2NodePeers × EpcX2ApplicationPairs))
    (a b : Nat) (x y : EpcX2ApplicationPairs) :
    EpcX2NodePeers.lt { m_enbPeer1 := a, m_enbPeer2 := b } { m_enbPeer1 := b, m_enbPeer2 := a }
      = false ∧
    EpcX2NodePeers.lt { m_enbPeer1 := b, m_enbPeer2 := a } { m_enbPeer1 := a, m_enbPeer2 := b }
      = false ∧
    AddX2Interface (AddX2Interface m a b x).m_x2Interfaces b a y
      = { m_x2Interfaces := (AddX2Interface m a b x).m_x2Interfaces
          handlers := (AddX2Interface m a b x).handlers
          duplicate := true } := by
  refine ⟨?_, ?_, ?_⟩
  · rw [EpcX2NodePeers.lt_swap_left]
    exact EpcX2NodePeers.lt_irrefl _
  · rw [EpcX2NodePeers.lt_swap_left]
    exact EpcX2NodePeers.lt_irrefl _
  · have hreg := AddX2Interface_registers m a b x
    have hswap : StdMap.find EpcX2NodePeers.lt { m_enbPeer1 := b, m_enbPeer2 := a }
        (AddX2Interface m a b x).m_x2Interfaces
        = some (AddX2Interface m a b x).handlers := by
      rw [StdMap.find_congr_key EpcX2NodePeers.lt { m_enbPeer1 := b, m_enbPeer2 := a }
        { m_enbPeer1 := a, m_enbPeer2 := b }
        (fun z => EpcX2NodePeers.lt_swap_right z b a)
        (fun z => EpcX2NodePeers.lt_swap_left z b a)]
      exact hreg
    exact AddX2Interface_of_find _ b a y _ hswap

/-! ## The flow key ordering -/

/-- C14: `operator<` on EpsFlowId_t is the lexicographic order that compares `m_rnti` first and
`m_bid` second, and it is a strict total order consistent with `operator==`: it is
irreflexive and transitive, `operator==` holds exactly for equal keys, and exactly
one of a < b, a == b, b < a holds. -/
theorem EpsFlowId_lt_strict_total (a b c : EpsFlowId_t) :
    EpsFlowId_t.lt a b = EpsFlowId_t.lexLt a b ∧
    EpsFlowId_t.lt a a = false ∧
    (EpsFlowId_t.lt a b = true → EpsFlowId_t.lt b c = true → EpsFlowId_t.lt a c = true) ∧
    (EpsFlowId_t.eq a b = true ↔ a = b) ∧
    ((EpsFlowId_t.lt a b = true ∧ EpsFlowId_t.eq a b = false ∧ EpsFlowId_t.lt b a = false) ∨
     (EpsFlowId_t.lt a b = false ∧ EpsFlowId_t.eq a b = true ∧ EpsFlowId_t.lt b a = false) ∨
     (EpsFlowId_t.lt a b = false ∧ EpsFlowId_t.eq a b = false ∧ EpsFlowId_t.lt b a = true)) := by
  obtain ⟨ar, ab⟩ := a
  obtain ⟨br, bb⟩ := b
  obtain ⟨cr, cb⟩ := c
  refine ⟨?_, ?_, ?_, ?_, ?_⟩
  · by_cases h : ar = br
    · simp [EpsFlowId_t.lt, EpsFlowId_t.lexLt, h]
    · simp [EpsFlowId_t.lt, EpsFlowId_t.lexLt, h]
  · simp [EpsFlowId_t.lt]
  · simp only [EpsFlowId_t.lt, Bool.or_eq_true, Bool.and_eq_true, decide_eq_true_eq,
      beq_iff_eq]
    omega
  · simp [EpsFlowId_t.eq]
  · simp only [EpsFlowId_t.lt, EpsFlowId_t.eq, Bool.or_eq_true, Bool.and_eq_true,
      decide_eq_true_eq, beq_iff_eq, Bool.or_eq_false_iff, Bool.and_eq_false_iff,
      decide_eq_false_iff_not, beq_eq_false_iff_ne, ne_eq]
    omega

/-! ## Reachable states and frame conditions -/

namespace EpcEnbApplication

theorem ErabSetupRequest_state (st : EpcEnbApplication) (teid imsi : Nat) (bearer : EpsBearer) :
    (ErabSetupRequest st teid imsi bearer).state = st := by
  unfold ErabSetupRequest
  split <;> rfl

theorem RecvFromLteSocket_state (G : GtpuCodec) (st : EpcEnbApplication) (socket : Nat)
    (packet : Packet) : (RecvFromLteSocket G st socket packet).state = st := by
  obtain ⟨bytes, satag, btag⟩ := packet
  by_cases hs : socket = st.m_lteSocket
  · cases btag with
    | none =>
      simp [RecvFromLteSocket, hs, Packet.RemoveSocketAddressTag, Packet.RemoveEpsBearerTag]
    | some tag =>
      cases hf : StdMap.find EpsFlowId_t.lt { m_rnti := tag.rnti, m_bid := tag.bid }
          st.m_rbidTeidMap with
      | none =>
        simp [RecvFromLteSocket, hs, Packet.RemoveSocketAddressTag, Packet.RemoveEpsBearerTag,
          hf]
      | some teid =>
        simp [RecvFromLteSocket, hs, Packet.RemoveSocketAddressTag, Packet.RemoveEpsBearerTag,
          hf, SendToS1uSocket]
  · simp [RecvFromLteSocket, hs]

theorem RecvFromS1uSocket_state (G : GtpuCodec) (lteSend : Packet → Int)
    (st : EpcEnbApplication) (socket : Nat) (packet : Packet) :
    (RecvFromS1uSocket G lteSend st socket packet).state = st := by
  by_cases hs : socket = st.m_s1uSocket
  · cases hf : StdMap.find natLt
        ((packet.RemoveHeader G).getD (G.ctor, packet)).1.GetTeid st.m_teidRbidMap with
    | none => simp [RecvFromS1uSocket, hs, hf]
    | some rbid => simp [RecvFromS1uSocket, hs, hf, SendToLteSocket]
  · simp [RecvFromS1uSocket, hs]

theorem tablesClosed_create (lteSocket s1uSocket sgwAddress : Nat) :
    TablesClosed (create lteSocket s1uSocket sgwAddress) := by
  constructor <;> intro _ _ h <;> simp [create, StdMap.find] at h

theorem tablesClosed_DoS1BearerSetupRequest (st : EpcEnbApplication)
    (params : S1BearerSetupRequestParameters) (h : TablesClosed st) :
    TablesClosed (DoS1BearerSetupRequest st params) := by
  constructor
  · intro k t hk
    simp only [DoS1BearerSetupRequest] at hk ⊢
    by_cases ht : t = params.gtpTeid
    · subst ht
      exact ⟨_, StdMap.find_assign_self _ natLt_strictTotal.irrefl _ _ _⟩
    · rw [StdMap.find_assign_ne _ natLt_strictTotal _ _ _ ht]
      by_cases hk2 : k = ⟨params.rnti, params.bid⟩
      · subst hk2
        rw [StdMap.find_assign_self _ flowLt_strictTotal.irrefl] at hk
        injection hk with hk
        exact absurd hk.symm ht
      · rw [StdMap.find_assign_ne _ flowLt_strictTotal _ _ _ hk2] at hk
        exact h.1 k t hk
  · intro t k ht
    simp only [DoS1BearerSetupRequest] at ht ⊢
    by_cases hk : k = ⟨params.rnti, params.bid⟩
    · subst hk
      exact ⟨_, StdMap.find_assign_self _ flowLt_strictTotal.irrefl _ _ _⟩
    · rw [StdMap.find_assign_ne _ flowLt_strictTotal _ _ _ hk]
      by_cases ht2 : t = params.gtpTeid
      · subst ht2
        rw [StdMap.find_assign_self _ natLt_strictTotal.irrefl] at ht
        injection ht with ht
        exact absurd ht.symm hk
      · rw [StdMap.find_assign_ne _ natLt_strictTotal _ _ _ ht2] at ht
        exact h.2 t k ht

theorem tablesClosed_exec (G : GtpuCodec) (lteSend : Packet → Int) (st : EpcEnbApplication)
    (op : Operation) (h : TablesClosed st) : TablesClosed (exec G lteSend st op) := by
  cases op with
  | control call =>
    cases call with
    | initialUeMessage imsi rnti => exact h
    | s1BearerSetupRequest params => exact tablesClosed_DoS1BearerSetupRequest st params h
  | erabSetupRequest teid imsi bearer =>
    simp only [exec, ErabSetupRequest_state]
    exact h
  | recvFromLteSocket socket packet =>
    simp only [exec, RecvFromLteSocket_state]
    exact h
  | recvFromS1uSocket socket packet =>
    simp only [exec, RecvFromS1uSocket_state]
    exact h

theorem tablesClosed_execAll (G : GtpuCodec) (lteSend : Packet → Int) (ops : List Operation)
    (st : EpcEnbApplication) (h : TablesClosed st) :
    TablesClosed (execAll G lteSend st ops) := by
  induction ops generalizing st with
  | nil => exact h
  | cons op rest ih =>
    simp only [execAll, List.foldl_cons]
    exact ih _ (tablesClosed_exec G lteSend st op h)

/-- C15: in every state reached from the constructed application by any sequence of its
operations (the two control calls, ErabSetupRequest and the two socket handlers),
every teid stored as a value of `m_rbidTeidMap` is a key of `m_teidRbidMap` and
every flow key stored as a value of `m_teidRbidMap` is a key of `m_rbidTeidMap`: a
teid obtained by the uplink lookup is always found by the downlink lookup. -/
theorem tables_closed_reachable (G : GtpuCodec) (lteSend : Packet → Int)
    (lteSocket s1uSocket sgwAddress : Nat) (ops : List Operation) :
    TablesClosed (execAll G lteSend (create lteSocket s1uSocket sgwAddress) ops) :=
  tablesClosed_execAll G lteSend ops _ (tablesClosed_create lteSocket s1uSocket sgwAddress)

/-- C16: frame of the control calls: DoS1BearerSetupRequest (rnti, bid, teid) leaves
`m_imsiRntiMap` unchanged, and leaves the lookup of every flow key other than
(rnti, bid) in `m_rbidTeidMap` and of every teid other than the given one in
`m_teidRbidMap` unchanged; DoInitialUeMessage (imsi, rnti) leaves both bearer tables
unchanged and leaves the lookup of every other subscriber in `m_imsiRntiMap`
unchanged. -/
theorem control_calls_frame (st : EpcEnbApplication) (rnti bid teid imsi rnti2 : Nat) :
    (DoS1BearerSetupRequest st { rnti := rnti, bid := bid, gtpTeid := teid }).m_imsiRntiMap
      = st.m_imsiRntiMap ∧
    (∀ k : EpsFlowId_t, k ≠ { m_rnti := rnti, m_bid := bid } →
      StdMap.find EpsFlowId_t.lt k
          (DoS1BearerSetupRequest st { rnti := rnti, bid := bid, gtpTeid := teid }).m_rbidTeidMap
        = StdMap.find EpsFlowId_t.lt k st.m_rbidTeidMap) ∧
    (∀ t : Nat, t ≠ teid →
      StdMap.find natLt t
          (DoS1BearerSetupRequest st { rnti := rnti, bid := bid, gtpTeid := teid }).m_teidRbidMap
        = StdMap.find natLt t st.m_teidRbidMap) ∧
    (DoInitialUeMessage st imsi rnti2).m_rbidTeidMap = st.m_rbidTeidMap ∧
    (DoInitialUeMessage st imsi rnti2).m_teidRbidMap = st.m_teidRbidMap ∧
    (∀ i : Nat, i ≠ imsi →
      StdMap.find natLt i (DoInitialUeMessage st imsi rnti2).m_imsiRntiMap
        = StdMap.find natLt i st.m_imsiRntiMap) := by
  refine ⟨rfl, ?_, ?_, rfl, rfl, ?_⟩
  · intro k hk
    exact StdMap.find_assign_ne _ flowLt_strictTotal _ _ _ hk _
  · intro t ht
    exact StdMap.find_assign_ne _ natLt_strictTotal _ _ _ ht _
  · intro i hi
    exact StdMap.find_assign_ne _ natLt_strictTotal _ _ _ hi _

/-- C17: the socket handlers and the indication are read-only on the members: whatever the
socket, the packet, the teid, the imsi and the bearer, and whether they succeed
or fail, RecvFromLteSocket, RecvFromS1uSocket and ErabSetupRequest leave
`m_rbidTeidMap`, `m_teidRbidMap` and `m_imsiRntiMap` exactly as they were. -/
theorem handlers_read_only (G : GtpuCodec) (lteSend : Packet → Int) (st : EpcEnbApplication)
    (socket : Nat) (packet : Packet) (teid imsi : Nat) (bearer : EpsBearer) :
    (RecvFromLteSocket G st socket packet).state = st ∧
    (RecvFromS1uSocket G lteSend st socket packet).state = st ∧
    (ErabSetupRequest st teid imsi bearer).state = st :=
  ⟨RecvFromLteSocket_state G st socket packet,
    RecvFromS1uSocket_state G lteSend st socket packet,
    ErabSetupRequest_state st teid imsi bearer⟩

end EpcEnbApplication

end ns3
